import Mathlib

/-!
Shallow embedding of the OpenFloraFauna core (node registry, connection
validator, flow serializer, flow store) for checking the repository's
specification. Definitions are translated from the JavaScript sources
`src/lib/node-shapes.js`, `src/lib/node-registry.js`, `src/lib/flow-io.js`
and the Pinia flow store.
-/

/-- Minimal model of a JavaScript value, covering the shapes that the
flow-serializer code can observe (`typeof`, truthiness, `Array.isArray`,
property access). Objects are ordered field lists; property lookup takes
the first matching key. -/
inductive Js where
  | undefined
  | null
  | bool (b : Bool)
  | num (n : Int)
  | str (s : String)
  | arr (elems : List Js)
  | obj (fields : List (String × Js))
deriving Repr

/-- JavaScript `typeof` operator on the modelled values (`typeof null` is
`"object"`, and arrays are `"object"` as well). -/
def jsTypeof : Js → String
  | .undefined => "undefined"
  | .null => "object"
  | .bool _ => "boolean"
  | .num _ => "number"
  | .str _ => "string"
  | .arr _ => "object"
  | .obj _ => "object"

/-- JavaScript truthiness: `undefined`, `null`, `false`, `0` and `""` are
falsy; every array and object is truthy. (The model has no NaN.) -/
def jsTruthy : Js → Bool
  | .undefined => false
  | .null => false
  | .bool b => b
  | .num n => n ≠ 0
  | .str s => s ≠ ""
  | .arr _ => true
  | .obj _ => true

/-- Property access `v[key]` on a modelled value: named lookup on an
object, `undefined` on everything else (named properties of primitives
and arrays, as read by the flow serializer, are `undefined`). Access on
`null`/`undefined` would throw in JavaScript; the serializer only reaches
this operation on values it has guarded, except for array elements, which
`validateFlow` handles explicitly (see `nodeCheck`/`edgeCheck`). -/
def jsGet : Js → String → Js
  | .obj fields, key =>
      match fields.find? (fun f => f.1 = key) with
      | some f => f.2
      | none => .undefined
  | _, _ => .undefined

/-- Check `v && typeof v === 'string'` as used throughout `validateFlow`:
the value is a non-empty string. -/
def strOk : Js → Bool
  | .str s => s ≠ ""
  | _ => false

/-- Array.isArray on the modelled values. -/
def jsIsArray : Js → Bool
  | .arr _ => true
  | _ => false

/-- Elements of a modelled array (empty for non-arrays; only applied to
values already known to be arrays). -/
def jsElems : Js → List Js
  | .arr elems => elems
  | _ => []

/-! ## Node and edge shapes (`node-shapes.js`, flow store)

A node in the flow store carries exactly the fields the serializer
round-trips: `id`, `type`, `position`, `data`, `io`. The `position`,
`data` and `io` payloads are kept as modelled JavaScript values, since
the serializer copies them opaquely. -/

structure FlowNode where
  id : String
  type : String
  position : Js
  data : Js
  io : Js
deriving Repr

structure FlowEdge where
  id : String
  source : String
  target : String
  sourceHandle : Js
  targetHandle : Js
deriving Repr

/-- Candidate connection object handed to `validateConnection`
(`{ source, target, sourceHandle, targetHandle }`). -/
structure ConnCandidate where
  source : String
  target : String
  sourceHandle : Js
  targetHandle : Js
deriving Repr

/-! ## Node registry (`node-registry.js`) -/

/-- Registered node definition as stored by `NodeRegistry.registerNode`
(a defensive copy with `description`/`config` defaulted). The renderer
`component` is opaque to the core; it is modelled by its (truthy)
identifier string. -/
structure NodeDef where
  type : String
  label : String
  description : String
  inputs : List String
  outputs : List String
  component : String
  config : List (String × String)
deriving Repr

/-- Definition object passed to `registerNode` before validation: any
field may be absent (`none`). An empty string models a falsy string
value for the truthiness checks. -/
structure DefInput where
  type : Option String := none
  label : Option String := none
  description : Option String := none
  inputs : Option (List String) := none
  outputs : Option (List String) := none
  component : Option String := none
  config : Option (List (String × String)) := none
deriving Repr

/-- Registry state: the `Map` from type string to definition, as an
insertion-ordered association list with unique keys. -/
abbrev Registry := List (String × NodeDef)

/-- NodeRegistry.getNodeDef: `this.nodes.get(type) || null`. -/
def getNodeDef (reg : Registry) (t : String) : Option NodeDef :=
  match reg.find? (fun e => e.1 = t) with
  | some e => some e.2
  | none => none

/-- NodeRegistry.hasNode: `this.nodes.has(type)`. -/
def hasNode (reg : Registry) (t : String) : Bool :=
  (reg.find? (fun e => e.1 = t)).isSome

/-- Truthiness of an optional string field (`!definition.type` style
checks): absent or empty is falsy. -/
def optStrTruthy : Option String → Bool
  | some s => s ≠ ""
  | none => false

/-- NodeRegistry.registerNode, in source order: validate the definition
(type string, duplicate type, label string, inputs array, outputs array,
component), then insert a copy with `description`/`config` defaulted.
Throwing is modelled by `Except.error` carrying the message. -/
def registerNode (reg : Registry) (d : DefInput) : Except String Registry :=
  if ¬ optStrTruthy d.type then
    .error "Node definition must have a valid \"type\" string"
  else
    let t := d.type.getD ""
    if hasNode reg t then
      .error ("Node type \"" ++ t ++ "\" is already registered")
    else if ¬ optStrTruthy d.label then
      .error "Node definition must have a valid \"label\" string"
    else if d.inputs.isNone then
      .error "Node definition must have an \"inputs\" array"
    else if d.outputs.isNone then
      .error "Node definition must have an \"outputs\" array"
    else if ¬ optStrTruthy d.component then
      .error "Node definition must have a \"component\""
    else
      .ok (reg ++ [(t,
        { type := t
          label := d.label.getD ""
          description := d.description.getD ""
          inputs := d.inputs.getD []
          outputs := d.outputs.getD []
          component := d.component.getD ""
          config := d.config.getD [] })])

/-! ## Connection validation (`node-shapes.js`) -/

/-- Validation verdict `{ valid, reason? }`. -/
structure ConnResult where
  valid : Bool
  reason : Option String
deriving Repr

/-- canConnect: ports connect exactly when their type tags are equal. -/
def canConnect (sourcePortType targetPortType : String) : Bool :=
  sourcePortType = targetPortType

/-- canNodesConnect: look both node types up in the registry, require the
source to declare outputs and the target to declare inputs, then require
at least one pairwise-compatible port type. -/
def canNodesConnect (reg : Registry) (sourceNodeType targetNodeType : String) :
    ConnResult :=
  match getNodeDef reg sourceNodeType with
  | none =>
      { valid := false
        reason := some ("Source node type \"" ++ sourceNodeType ++ "\" not found in registry") }
  | some sourceDef =>
    match getNodeDef reg targetNodeType with
    | none =>
        { valid := false
          reason := some ("Target node type \"" ++ targetNodeType ++ "\" not found in registry") }
    | some targetDef =>
      if sourceDef.outputs.isEmpty then
        { valid := false, reason := some "Source node has no output ports" }
      else if targetDef.inputs.isEmpty then
        { valid := false, reason := some "Target node has no input ports" }
      else if sourceDef.outputs.any (fun outputType =>
          targetDef.inputs.any (fun inputType => canConnect outputType inputType)) then
        { valid := true, reason := none }
      else
        { valid := false, reason := some "Nodes have no compatible ports" }

/-- validateConnection: existence of both endpoint nodes, no
self-connection, node-type compatibility, then the duplicate check over
the `(source, target)` pairs of the existing edges. The module-level
registry singleton is passed explicitly. -/
def validateConnection (reg : Registry) (connection : ConnCandidate)
    (sourceNode targetNode : Option FlowNode)
    (existingEdges : List FlowEdge) : ConnResult :=
  match sourceNode with
  | none => { valid := false, reason := some "Source node not found" }
  | some sn =>
    match targetNode with
    | none => { valid := false, reason := some "Target node not found" }
    | some tn =>
      if connection.source = connection.target then
        { valid := false, reason := some "Cannot connect a node to itself" }
      else
        let nodesCompatibility := canNodesConnect reg sn.type tn.type
        if ¬ nodesCompatibility.valid then
          nodesCompatibility
        else if existingEdges.any (fun edge =>
            edge.source = connection.source ∧ edge.target = connection.target) then
          { valid := false, reason := some "This connection already exists" }
        else
          { valid := true, reason := none }

/-! ## Port-type resolution (`getEdgePortType` in `node-shapes.js`) -/

/-- Split a character list at every occurrence of the separator. -/
def splitCharAux (sep : Char) : List Char → List (List Char)
  | [] => [[]]
  | c :: cs =>
    let rest := splitCharAux sep cs
    if c = sep then [] :: rest
    else
      match rest with
      | [] => [[c]]
      | seg :: segs => (c :: seg) :: segs

/-- JavaScript `s.split(sep)` for a one-character separator: the list of
(possibly empty) segments between occurrences of the separator. -/
def jsSplit (sep : Char) (s : String) : List String :=
  (splitCharAux sep s.toList).map (fun seg => String.mk seg)

/-- JavaScript `arr.join(sep)` on an array of strings. -/
def jsJoin (sep : String) : List String → String
  | [] => ""
  | [x] => x
  | x :: xs => x ++ sep ++ jsJoin sep xs

/-- Value of a hexadecimal digit character, if any. -/
def hexDigitVal (c : Char) : Option Nat :=
  if '0' ≤ c ∧ c ≤ '9' then some (c.toNat - 48)
  else if 'a' ≤ c ∧ c ≤ 'f' then some (c.toNat - 87)
  else if 'A' ≤ c ∧ c ≤ 'F' then some (c.toNat - 55)
  else none

/-- Value of a decimal digit character, if any. -/
def decDigitVal (c : Char) : Option Nat :=
  if '0' ≤ c ∧ c ≤ '9' then some (c.toNat - 48) else none

/-- Longest run of digit values at the head of a character list. -/
def takeDigits (dig : Char → Option Nat) : List Char → List Nat
  | [] => []
  | c :: cs =>
    match dig c with
    | some v => v :: takeDigits dig cs
    | none => []

/-- JavaScript `parseInt(s)` (default radix): trim leading whitespace,
read an optional sign, honour a `0x`/`0X` hexadecimal prefix, then parse
the longest digit prefix; `none` models `NaN` when no digit is read. -/
def jsParseInt (s : String) : Option Int :=
  let cs := s.toList.dropWhile (fun c => c.isWhitespace)
  let (sign, cs1) : Int × List Char :=
    match cs with
    | '-' :: rest => (-1, rest)
    | '+' :: rest => (1, rest)
    | _ => (1, cs)
  let (base, dig, cs2) : Nat × (Char → Option Nat) × List Char :=
    match cs1 with
    | '0' :: 'x' :: rest => (16, hexDigitVal, rest)
    | '0' :: 'X' :: rest => (16, hexDigitVal, rest)
    | _ => (10, decDigitVal, cs1)
  let ds := takeDigits dig cs2
  if ds.isEmpty then none
  else some (sign * (ds.foldl (fun a d => a * base + d) 0 : Nat))

/-- Array indexing `arr[i] || null` with a JavaScript index: a negative
or out-of-range index reads `undefined`, and a falsy (empty) tag also
collapses to `null`. -/
def indexPort (portTypes : List String) (i : Int) : Option String :=
  if i < 0 then none
  else
    match portTypes.get? i.toNat with
    | some tag => if tag = "" then none else some tag
    | none => none

/-- Edge-like reference handed to `getEdgePortType`: the endpoint and
handle fields may each be absent. -/
structure EdgeRef where
  source : Option String := none
  target : Option String := none
  sourceHandle : Option String := none
  targetHandle : Option String := none
deriving Repr

/-- getEdgePortType: pick endpoint and handle by direction, return null
on a falsy id or handle, find the owning node, look its type up in the
registry, parse the handle index as `parseInt(handleId.split('-')[1])`,
and read the tag at that index from the definition's outputs (source
side) or inputs (target side), with `|| null`. -/
def getEdgePortType (edge : EdgeRef) (nodes : List FlowNode) (reg : Registry)
    (isSource : Bool) : Option String :=
  match (if isSource then edge.source else edge.target),
        (if isSource then edge.sourceHandle else edge.targetHandle) with
  | some nodeId, some handleId =>
    if nodeId = "" ∨ handleId = "" then none
    else
      match nodes.find? (fun n => n.id = nodeId) with
      | none => none
      | some node =>
        match getNodeDef reg node.type with
        | none => none
        | some nodeDef =>
          match (jsSplit '-' handleId).get? 1 with
          | none => none
          | some seg =>
            match jsParseInt seg with
            | none => none
            | some handleIndex =>
              indexPort (if isSource then nodeDef.outputs else nodeDef.inputs)
                handleIndex
  | _, _ => none

/-- Modelled from the spec wording of port-type resolution ("parse the
trailing integer after the last `-`"): index taken from the final
dash-separated segment of the handle id. Used only to compare the spec's
description with the source's `split('-')[1]`. -/
def specTrailingIndex (handleId : String) : Option Int :=
  jsParseInt ((jsSplit '-' handleId).getLastD "")

/-! ## Flow store (Pinia store, options variant) -/

/-- Flow store state: node and edge collections plus selection and
status fields. -/
structure FlowStore where
  nodes : List FlowNode
  edges : List FlowEdge
  selectedNodeId : Option String := none
  isLoading : Bool := false
  error : Option String := none
deriving Repr

/-- The store's removeNode action: filter the node out by id, drop every
edge whose source or target is the removed id, and clear the selection
if it pointed at the removed node. -/
def removeNode (s : FlowStore) (nodeId : String) : FlowStore :=
  { s with
    nodes := s.nodes.filter (fun node => node.id ≠ nodeId)
    edges := s.edges.filter (fun edge => edge.source ≠ nodeId ∧ edge.target ≠ nodeId)
    selectedNodeId := if s.selectedNodeId = some nodeId then none else s.selectedNodeId }

/-! ## Flow serializer (`flow-io.js`) -/

/-- Result of `validateFlow`: `{ valid, errors }`. -/
structure VResult where
  valid : Bool
  errors : List String
deriving Repr

/-- Per-node structural checks of `validateFlow`, in source order,
producing the error strings for node `i`. A `null`/`undefined` array
element makes the property accesses throw, modelled as `none`. -/
def nodeCheck (i : Nat) (node : Js) : Option (List String) :=
  match node with
  | .undefined => none
  | .null => none
  | n =>
    some (
      (if strOk (jsGet n "id") then [] else [s!"Node {i}: missing or invalid id"]) ++
      (if strOk (jsGet n "type") then [] else [s!"Node {i}: missing or invalid type"]) ++
      (if jsTruthy (jsGet n "position") ∧
          jsTypeof (jsGet (jsGet n "position") "x") = "number" ∧
          jsTypeof (jsGet (jsGet n "position") "y") = "number"
        then [] else [s!"Node {i}: missing or invalid position"]) ++
      (if jsTruthy (jsGet n "data") ∧ jsTypeof (jsGet n "data") = "object"
        then [] else [s!"Node {i}: missing or invalid data"]))

/-- Per-edge structural checks of `validateFlow`, in source order. -/
def edgeCheck (i : Nat) (edge : Js) : Option (List String) :=
  match edge with
  | .undefined => none
  | .null => none
  | e =>
    some (
      (if strOk (jsGet e "id") then [] else [s!"Edge {i}: missing or invalid id"]) ++
      (if strOk (jsGet e "source") then [] else [s!"Edge {i}: missing or invalid source"]) ++
      (if strOk (jsGet e "target") then [] else [s!"Edge {i}: missing or invalid target"]))

/-- Run an indexed element check over a list, concatenating the error
lists; a thrown check (`none`) aborts the whole traversal. -/
def checkAll (f : Nat → Js → Option (List String)) : Nat → List Js → Option (List String)
  | _, [] => some []
  | i, x :: xs =>
    match f i x with
    | none => none
    | some es =>
      match checkAll f (i + 1) xs with
      | none => none
      | some rest => some (es ++ rest)

/-- Check of the `nodes` field: either the per-node traversal or the
single array-shape violation. -/
def nodesSection (v : Js) : Option (List String) :=
  match v with
  | .arr l => checkAll nodeCheck 0 l
  | _ => some ["Nodes must be an array"]

/-- Check of the `edges` field: either the per-edge traversal or the
single array-shape violation. -/
def edgesSection (v : Js) : Option (List String) :=
  match v with
  | .arr l => checkAll edgeCheck 0 l
  | _ => some ["Edges must be an array"]

/-- validateFlow: reject a falsy or non-object document outright, then
accumulate all violations over `version`, `createdAt`, the `nodes` array
and the `edges` array. The result is `none` when the JavaScript function
would throw (property access on a `null`/`undefined` array element). -/
def validateFlow (flowData : Js) : Option VResult :=
  if ¬ (jsTruthy flowData ∧ jsTypeof flowData = "object") then
    some { valid := false, errors := ["Flow data must be an object"] }
  else
    let versionErrs := if strOk (jsGet flowData "version") then ([] : List String)
      else ["Missing or invalid version"]
    let createdAtErrs := if strOk (jsGet flowData "createdAt") then ([] : List String)
      else ["Missing or invalid createdAt"]
    match nodesSection (jsGet flowData "nodes"), edgesSection (jsGet flowData "edges") with
    | some nodeErrs, some edgeErrs =>
      let errors := versionErrs ++ createdAtErrs ++ nodeErrs ++ edgeErrs
      some { valid := errors.isEmpty, errors := errors }
    | _, _ => none

/-- Serialized form of one store node: exactly
`{ id, type, position, data, io }`. -/
def exportNode (node : FlowNode) : Js :=
  .obj [("id", .str node.id), ("type", .str node.type),
        ("position", node.position), ("data", node.data), ("io", node.io)]

/-- Serialized form of one store edge: exactly
`{ id, source, target, sourceHandle, targetHandle }`. -/
def exportEdge (edge : FlowEdge) : Js :=
  .obj [("id", .str edge.id), ("source", .str edge.source),
        ("target", .str edge.target), ("sourceHandle", edge.sourceHandle),
        ("targetHandle", edge.targetHandle)]

/-- exportFlow: the versioned document with the mapped node and edge
collections. The `new Date().toISOString()` timestamp is a parameter. -/
def exportFlow (createdAt : String) (flowStore : FlowStore) : Js :=
  .obj [("version", .str "1.0.0"), ("createdAt", .str createdAt),
        ("nodes", .arr (flowStore.nodes.map exportNode)),
        ("edges", .arr (flowStore.edges.map exportEdge))]

/-- Node object rebuilt by `importFlow` from a serialized node
(`{ id: node.id, type: node.type, position: node.position, data:
node.data, io: node.io }`); `id` and `type` are strings after
validation, the rest is copied opaquely. -/
def jsToFlowNode (j : Js) : FlowNode :=
  { id := match jsGet j "id" with | .str s => s | _ => ""
    type := match jsGet j "type" with | .str s => s | _ => ""
    position := jsGet j "position"
    data := jsGet j "data"
    io := jsGet j "io" }

/-- Edge object rebuilt by `importFlow` from a serialized edge. -/
def jsToFlowEdge (j : Js) : FlowEdge :=
  { id := match jsGet j "id" with | .str s => s | _ => ""
    source := match jsGet j "source" with | .str s => s | _ => ""
    target := match jsGet j "target" with | .str s => s | _ => ""
    sourceHandle := jsGet j "sourceHandle"
    targetHandle := jsGet j "targetHandle" }

/-- The `flowStore` argument of `importFlow` is an arbitrary store
object whose `addNode`/`addEdge` methods may throw; a thrown call is
modelled as `Except.error` carrying the exception message. -/
structure FlowStoreOps where
  addNode : FlowStore → FlowNode → Except String FlowStore
  addEdge : FlowStore → FlowEdge → Except String FlowStore

/-- Store operations of the repository's flow store (part of the Pinia
options store): `addNode`/`addEdge` push onto the collections and never
throw. -/
def pushOps : FlowStoreOps :=
  { addNode := fun s n => .ok { s with nodes := s.nodes ++ [n] }
    addEdge := fun s e => .ok { s with edges := s.edges ++ [e] } }

/-- Run `addNode` over the serialized nodes in order, threading the
store; on a throw, surface the message together with the store state at
that moment. -/
def addNodesLoop (ops : FlowStoreOps) : List Js → FlowStore →
    Except (String × FlowStore) FlowStore
  | [], s => .ok s
  | j :: rest, s =>
    match ops.addNode s (jsToFlowNode j) with
    | .error msg => .error (msg, s)
    | .ok s' => addNodesLoop ops rest s'

/-- Run `addEdge` over the serialized edges in order, threading the
store. -/
def addEdgesLoop (ops : FlowStoreOps) : List Js → FlowStore →
    Except (String × FlowStore) FlowStore
  | [], s => .ok s
  | j :: rest, s =>
    match ops.addEdge s (jsToFlowEdge j) with
    | .error msg => .error (msg, s)
    | .ok s' => addEdgesLoop ops rest s'

/-- Result of `importFlow`: `{ success, error? }`. -/
structure ImportResult where
  success : Bool
  error : Option String
deriving Repr

/-- Exception message fallback `error.message || 'Failed to import
flow'`. -/
def importErrMsg (msg : String) : String :=
  if msg = "" then "Failed to import flow" else msg

/-- importFlow: validate the structure and return the joined errors
without touching the store on failure; otherwise clear both collections
and repopulate them through the store's `addNode`/`addEdge`, catching
any exception as `{ success: false, error }` with the store left as the
mutations made so far. The outer `none` marks an exception escaping
`importFlow` itself (thrown by `validateFlow`). The final store state is
returned alongside the result. -/
def importFlow (ops : FlowStoreOps) (flowData : Js) (flowStore : FlowStore) :
    Option (ImportResult × FlowStore) :=
  match validateFlow flowData with
  | none => none
  | some validation =>
    if ¬ validation.valid then
      some ({ success := false
              error := some ("Invalid flow format: " ++ jsJoin ", " validation.errors) },
            flowStore)
    else
      let cleared := { flowStore with nodes := [], edges := [] }
      match addNodesLoop ops (jsElems (jsGet flowData "nodes")) cleared with
      | .error (msg, s) =>
          some ({ success := false, error := some (importErrMsg msg) }, s)
      | .ok s1 =>
        match addEdgesLoop ops (jsElems (jsGet flowData "edges")) s1 with
        | .error (msg, s) =>
            some ({ success := false, error := some (importErrMsg msg) }, s)
        | .ok s2 => some ({ success := true, error := none }, s2)

/-! ## Theorems -/

/-- C10: removing a node deletes exactly that node's entries and every
edge touching it, and keeps everything else (membership is preserved for
all other nodes and edges, in their original order). -/
theorem removeNode_frame (s : FlowStore) (nodeId : String) :
    (∀ n, n ∈ (removeNode s nodeId).nodes ↔ (n ∈ s.nodes ∧ n.id ≠ nodeId)) ∧
    (∀ e, e ∈ (removeNode s nodeId).edges ↔
      (e ∈ s.edges ∧ e.source ≠ nodeId ∧ e.target ≠ nodeId)) ∧
    (removeNode s nodeId).nodes.Sublist s.nodes ∧
    (removeNode s nodeId).edges.Sublist s.edges := by
  refine ⟨fun n => ?_, fun e => ?_, ?_, ?_⟩
  · simp [removeNode, List.mem_filter]
  · simp [removeNode, List.mem_filter, and_assoc]
  · exact List.filter_sublist _
  · exact List.filter_sublist _

/-- C5: once a definition is registered under type `T`, any further
`registerNode` call whose definition carries the same type throws the
duplicate-type configuration error, and `getNodeDef T` still returns the
original definition. -/
theorem registerNode_duplicate (reg : Registry) (d : DefInput) (T : String)
    (def0 : NodeDef) (hT : T ≠ "") (hreg : getNodeDef reg T = some def0)
    (hd : d.type = some T) :
    registerNode reg d = .error ("Node type \"" ++ T ++ "\" is already registered") ∧
    getNodeDef reg T = some def0 := by
  refine ⟨?_, hreg⟩
  have htruthy : optStrTruthy d.type = true := by
    rw [hd]; simp [optStrTruthy, hT]
  have hhas : hasNode reg T = true := by
    unfold getNodeDef at hreg
    unfold hasNode
    cases hfind : reg.find? (fun e => e.1 = T) with
    | none => rw [hfind] at hreg; simp at hreg
    | some e => simp
  unfold registerNode
  rw [htruthy]
  simp only [not_true_eq_false, if_false, hd, Option.getD_some]
  rw [hhas]
  simp

/-- Registered image-node definition used in concrete instances. -/
def imageDef : NodeDef :=
  { type := "image", label := "Image", description := ""
    inputs := [], outputs := ["image"], component := "ImageNode", config := [] }

/-- One-entry registry holding the image definition. -/
def regOne : Registry := [("image", imageDef)]

/-- Second definition input reusing the already-registered type. -/
def dupInput : DefInput :=
  { type := some "image", label := some "Image again"
    inputs := some [], outputs := some [], component := some "OtherNode" }

/-- Witness for C5 at a concrete registry and duplicate definition. -/
theorem registerNode_duplicate_witness :
    registerNode regOne dupInput =
      .error ("Node type \"" ++ "image" ++ "\" is already registered") ∧
    getNodeDef regOne "image" = some imageDef :=
  registerNode_duplicate regOne dupInput "image" imageDef (by decide) (by rfl) (by rfl)


/-- Reduction of `validateConnection` past the existence, self-loop and
compatibility gates: only the duplicate check remains. -/
theorem validateConnection_reduce (reg : Registry) (c : ConnCandidate)
    (sn tn : FlowNode) (es : List FlowEdge) (hst : c.source ≠ c.target)
    (hcompat : (canNodesConnect reg sn.type tn.type).valid = true) :
    validateConnection reg c (some sn) (some tn) es =
      if es.any (fun edge => edge.source = c.source ∧ edge.target = c.target) then
        { valid := false, reason := some "This connection already exists" }
      else { valid := true, reason := none } := by
  simp only [validateConnection]
  rw [if_neg hst]
  simp [hcompat]

/-- C1: with both endpoint types registered, the compatibility step
accepts exactly when some declared output tag of the source type equals
some declared input tag of the target type; an empty output list yields
the source-specific reason and an empty input list the target-specific
one; and the surrounding validator ignores the candidate's handles. -/
theorem canNodesConnect_spec (reg : Registry) (sourceNodeType targetNodeType : String)
    (sd td : NodeDef) (hs : getNodeDef reg sourceNodeType = some sd)
    (ht : getNodeDef reg targetNodeType = some td) :
    ((canNodesConnect reg sourceNodeType targetNodeType).valid = true ↔
      ∃ p, p ∈ sd.outputs ∧ p ∈ td.inputs) ∧
    (sd.outputs = [] →
      canNodesConnect reg sourceNodeType targetNodeType =
        { valid := false, reason := some "Source node has no output ports" }) ∧
    (sd.outputs ≠ [] → td.inputs = [] →
      canNodesConnect reg sourceNodeType targetNodeType =
        { valid := false, reason := some "Target node has no input ports" }) ∧
    (∀ c1 c2 : ConnCandidate, ∀ sn tn es, c1.source = c2.source →
      c1.target = c2.target →
      validateConnection reg c1 sn tn es = validateConnection reg c2 sn tn es) := by
  refine ⟨?_, ?_, ?_, ?_⟩
  · unfold canNodesConnect
    simp only [hs, ht]
    split_ifs with h1 h2 h3
    · simp only [List.isEmpty_iff] at h1
      simp [h1]
    · simp only [List.isEmpty_iff] at h2
      simp [h2]
    · simp only [List.any_eq_true, canConnect, decide_eq_true_eq] at h3
      obtain ⟨p, hp, q, hq, hpq⟩ := h3
      subst hpq
      simp only [true_iff]
      exact ⟨p, hp, hq⟩
    · simp only [List.any_eq_true, canConnect, decide_eq_true_eq] at h3
      simp only [false_iff]
      intro ⟨p, hp, hq⟩
      exact h3 ⟨p, hp, p, hq, rfl⟩
  · intro h
    unfold canNodesConnect
    simp only [hs, ht]
    simp [h]
  · intro h1 h2
    unfold canNodesConnect
    simp only [hs, ht]
    rw [if_neg (by simp [List.isEmpty_iff, h1])]
    simp [h2]
  · intro c1 c2 sn tn es h1 h2
    cases c1
    cases c2
    simp only at h1 h2
    subst h1
    subst h2
    rfl

/-- Registered generator definition used in concrete instances. -/
def genDef : NodeDef :=
  { type := "gen", label := "Gen", description := ""
    inputs := ["image", "prompt"], outputs := ["image"]
    component := "GenNode", config := [] }

/-- Two-entry registry holding the image and generator definitions. -/
def regTwo : Registry := [("image", imageDef), ("gen", genDef)]

/-- Witness for C1: between the image and generator types the shared
"image" tag makes the compatibility step accept. -/
theorem canNodesConnect_spec_witness :
    (canNodesConnect regTwo "image" "gen").valid = true :=
  (canNodesConnect_spec regTwo "image" "gen" imageDef genDef (by rfl) (by rfl)).1.mpr
    ⟨"image", by decide, by decide⟩

/-- C6: a candidate whose `(source, target)` pair already appears among
the existing edges is rejected as a duplicate, whatever the handle
values on either the existing edge or the candidate. -/
theorem validateConnection_duplicate (reg : Registry) (connection : ConnCandidate)
    (sn tn : FlowNode) (existingEdges : List FlowEdge) (e : FlowEdge)
    (he : e ∈ existingEdges) (hes : e.source = connection.source)
    (het : e.target = connection.target)
    (hst : connection.source ≠ connection.target)
    (hcompat : (canNodesConnect reg sn.type tn.type).valid = true) :
    validateConnection reg connection (some sn) (some tn) existingEdges =
      { valid := false, reason := some "This connection already exists" } := by
  have hany : (existingEdges.any fun edge =>
      edge.source = connection.source ∧ edge.target = connection.target) = true := by
    simp only [List.any_eq_true, decide_eq_true_eq]
    exact ⟨e, he, hes, het⟩
  rw [validateConnection_reduce reg connection sn tn existingEdges hst hcompat,
    if_pos hany]

/-- The image-source node used in concrete connection instances. -/
def imgNode : FlowNode :=
  { id := "n1", type := "image", position := .null, data := .null, io := .null }

/-- The generator node used in concrete connection instances. -/
def genNode : FlowNode :=
  { id := "n2", type := "gen", position := .null, data := .null, io := .null }

/-- Witness for C6: with an `n1 → n2` edge present under different
handles, the duplicate candidate is rejected. -/
theorem validateConnection_duplicate_witness :
    validateConnection regTwo
      { source := "n1", target := "n2", sourceHandle := .str "output-0",
        targetHandle := .str "input-0" }
      (some imgNode) (some genNode)
      [{ id := "e1", source := "n1", target := "n2", sourceHandle := .str "output-9",
         targetHandle := .str "input-9" }] =
      { valid := false, reason := some "This connection already exists" } :=
  validateConnection_duplicate regTwo
    { source := "n1", target := "n2", sourceHandle := .str "output-0",
      targetHandle := .str "input-0" }
    imgNode genNode _
    { id := "e1", source := "n1", target := "n2", sourceHandle := .str "output-9",
      targetHandle := .str "input-9" }
    (by simp) (by rfl) (by rfl) (by decide) (by decide)

/-- C9: the duplicate check compares ordered pairs, so with only an edge
from `n1` to `n2` present, a reverse candidate from `n2` to `n1` between
distinct, mutually compatible nodes is accepted. -/
theorem validateConnection_reverse (reg : Registry) (n1 n2 : FlowNode)
    (e : FlowEdge) (c : ConnCandidate) (hid : n1.id ≠ n2.id)
    (hes : e.source = n1.id) (het : e.target = n2.id)
    (hcs : c.source = n2.id) (hct : c.target = n1.id)
    (hcompat12 : (canNodesConnect reg n1.type n2.type).valid = true)
    (hcompat21 : (canNodesConnect reg n2.type n1.type).valid = true) :
    validateConnection reg c (some n2) (some n1) [e] =
      { valid := true, reason := none } := by
  have hne : c.source ≠ c.target := by
    rw [hcs, hct]
    exact fun h => hid h.symm
  have hany : ¬ (([e].any fun edge =>
      edge.source = c.source ∧ edge.target = c.target) = true) := by
    simp only [List.any_eq_true, decide_eq_true_eq]
    rintro ⟨x, hx, hsx, htx⟩
    rw [List.mem_singleton] at hx
    subst hx
    rw [hes, hcs] at hsx
    exact hid hsx
  rw [validateConnection_reduce reg c n2 n1 [e] hne hcompat21, if_neg hany]

/-- A second generator node, target of the existing edge in the C9
witness. -/
def genNode3 : FlowNode :=
  { id := "n3", type := "gen", position := .null, data := .null, io := .null }

/-- Witness for C9: reversing the one existing edge between two
generator nodes is accepted. -/
theorem validateConnection_reverse_witness :
    validateConnection regTwo
      { source := "n3", target := "n2", sourceHandle := .str "output-0",
        targetHandle := .str "input-0" }
      (some genNode3) (some genNode)
      [{ id := "e1", source := "n2", target := "n3", sourceHandle := .undefined,
         targetHandle := .undefined }] =
      { valid := true, reason := none } :=
  validateConnection_reverse regTwo genNode genNode3
    { id := "e1", source := "n2", target := "n3", sourceHandle := .undefined,
      targetHandle := .undefined }
    { source := "n3", target := "n2", sourceHandle := .str "output-0",
      targetHandle := .str "input-0" }
    (by decide) (by rfl) (by rfl) (by rfl) (by rfl) (by decide) (by decide)

/-- Empty graph state. -/
def emptyFlowStore : FlowStore := { nodes := [], edges := [] }

/-- C4: a document failing structural validation makes `importFlow`
return failure with the comma-joined validation errors, and the target
store is returned untouched. -/
theorem importFlow_validation_failure (ops : FlowStoreOps) (flowData : Js)
    (flowStore : FlowStore) (v : VResult)
    (hv : validateFlow flowData = some v) (hvalid : v.valid = false) :
    importFlow ops flowData flowStore =
      some ({ success := false,
              error := some ("Invalid flow format: " ++ jsJoin ", " v.errors) },
            flowStore) := by
  unfold importFlow
  rw [hv]
  simp [hvalid]

/-- Witness for C4 at the degenerate `null` document. -/
theorem importFlow_validation_failure_witness :
    importFlow pushOps Js.null emptyFlowStore =
      some ({ success := false,
              error := some ("Invalid flow format: " ++
                jsJoin ", " ["Flow data must be an object"]) },
            emptyFlowStore) :=
  importFlow_validation_failure pushOps Js.null emptyFlowStore
    { valid := false, errors := ["Flow data must be an object"] } (by rfl) (by rfl)

/-- A value read as a non-empty string through `jsGet` forces the read
value to be an object. -/
theorem jsGet_str_obj {j : Js} {k s : String} (h : jsGet j k = .str s) :
    ∃ fs, j = Js.obj fs := by
  cases j
  case obj fs => exact ⟨fs, rfl⟩
  all_goals simp [jsGet] at h

/-- The nodes section reports the array-shape violation on any non-array
value. -/
theorem nodesSection_not_array {v : Js} (h : jsIsArray v = false) :
    nodesSection v = some ["Nodes must be an array"] := by
  cases v <;> simp_all [jsIsArray, nodesSection]

/-- C8 (amended): on an object document lacking `version`, carrying a
non-empty string `createdAt`, a non-array `nodes` value and a one-edge
`edges` array whose edge has non-empty string `id` and `source` but no
`target`, `validateStructure` accumulates exactly the three violations
rather than stopping at the first. -/
theorem validateFlow_accumulates (d eObj : Js) (ca ei es : String)
    (hobj : jsTruthy d = true) (hobjT : jsTypeof d = "object")
    (hver : jsGet d "version" = .undefined)
    (hca : jsGet d "createdAt" = .str ca) (hcane : ca ≠ "")
    (hna : jsIsArray (jsGet d "nodes") = false)
    (hedges : jsGet d "edges" = .arr [eObj])
    (hei : jsGet eObj "id" = .str ei) (heine : ei ≠ "")
    (hes : jsGet eObj "source" = .str es) (hesne : es ≠ "")
    (het : jsGet eObj "target" = .undefined) :
    validateFlow d = some
      { valid := false,
        errors := ["Missing or invalid version", "Nodes must be an array",
                   "Edge 0: missing or invalid target"] } := by
  obtain ⟨fs, rfl⟩ := jsGet_str_obj hei
  unfold validateFlow
  rw [if_neg (by simp [hobj, hobjT])]
  rw [hver, hca, hedges, nodesSection_not_array hna]
  have hcheck : edgeCheck 0 (Js.obj fs) = some ["Edge 0: missing or invalid target"] := by
    simp only [edgeCheck, hei, hes, het]
    simp [strOk, heine, hesne]
    decide
  simp [edgesSection, checkAll, hcheck, strOk, hcane]

/-- Document differing from the C8 premises only in that `createdAt` is
the empty string, which is still a string. -/
def docEmptyCreatedAt : Js :=
  .obj [("createdAt", .str ""), ("nodes", .num 3),
        ("edges", .arr [.obj [("id", .str "e1"), ("source", .str "n1")]])]

/-- Counterexample to C8 as stated: with `createdAt` the (falsy) empty
string the validator reports four violations, not three, because the
`createdAt` check tests truthiness, not just string-ness. -/
theorem validateFlow_accumulates_counterexample :
    validateFlow docEmptyCreatedAt = some
      { valid := false,
        errors := ["Missing or invalid version", "Missing or invalid createdAt",
                   "Nodes must be an array", "Edge 0: missing or invalid target"] } ∧
    ["Missing or invalid version", "Missing or invalid createdAt",
     "Nodes must be an array", "Edge 0: missing or invalid target"].length ≠ 3 := by
  constructor
  · rfl
  · decide

/-- Document with exactly the three C8 violations. -/
def docThreeViolations : Js :=
  .obj [("createdAt", .str "2024-01-01"), ("nodes", .num 3),
        ("edges", .arr [.obj [("id", .str "e1"), ("source", .str "n1")]])]

/-- Witness for C8's amended statement on a concrete document. -/
theorem validateFlow_accumulates_witness :
    validateFlow docThreeViolations = some
      { valid := false,
        errors := ["Missing or invalid version", "Nodes must be an array",
                   "Edge 0: missing or invalid target"] } :=
  validateFlow_accumulates docThreeViolations
    (.obj [("id", .str "e1"), ("source", .str "n1")])
    "2024-01-01" "e1" "n1" (by rfl) (by rfl) (by rfl) (by rfl) (by decide)
    (by rfl) (by rfl) (by rfl) (by decide) (by rfl) (by decide) (by rfl)

/-- Well-formedness of a store node under the serializer's structural
checks: non-empty id and type, a truthy position with numeric `x`/`y`,
and a truthy object `data`. -/
abbrev goodNode (n : FlowNode) : Prop :=
  n.id ≠ "" ∧ n.type ≠ "" ∧
  jsTruthy n.position = true ∧
  jsTypeof (jsGet n.position "x") = "number" ∧
  jsTypeof (jsGet n.position "y") = "number" ∧
  jsTruthy n.data = true ∧ jsTypeof n.data = "object"

/-- Well-formedness of a store edge under the serializer's structural
checks: non-empty id, source and target. -/
abbrev goodEdge (e : FlowEdge) : Prop :=
  e.id ≠ "" ∧ e.source ≠ "" ∧ e.target ≠ ""

/-- A serialized well-formed node passes every per-node check. -/
theorem nodeCheck_export (i : Nat) (n : FlowNode) (h : goodNode n) :
    nodeCheck i (exportNode n) = some [] := by
  obtain ⟨h1, h2, h3, h4, h5, h6, h7⟩ := h
  simp only [jsGet] at h4 h5
  simp [nodeCheck, exportNode, jsGet, strOk, h1, h2, h3, h4, h5, h6, h7]

/-- A serialized well-formed edge passes every per-edge check. -/
theorem edgeCheck_export (i : Nat) (e : FlowEdge) (h : goodEdge e) :
    edgeCheck i (exportEdge e) = some [] := by
  obtain ⟨h1, h2, h3⟩ := h
  simp [edgeCheck, exportEdge, jsGet, strOk, h1, h2, h3]

/-- Traversal of serialized well-formed nodes accumulates no errors. -/
theorem checkAll_nodes_export (l : List FlowNode) (i : Nat)
    (h : ∀ n ∈ l, goodNode n) :
    checkAll nodeCheck i (l.map exportNode) = some [] := by
  induction l generalizing i with
  | nil => rfl
  | cons n rest ih =>
    rw [List.map_cons]
    simp only [checkAll]
    rw [nodeCheck_export i n (h n (List.mem_cons_self n rest)),
      ih (i + 1) (fun m hm => h m (List.mem_cons_of_mem n hm))]
    rfl

/-- Traversal of serialized well-formed edges accumulates no errors. -/
theorem checkAll_edges_export (l : List FlowEdge) (i : Nat)
    (h : ∀ e ∈ l, goodEdge e) :
    checkAll edgeCheck i (l.map exportEdge) = some [] := by
  induction l generalizing i with
  | nil => rfl
  | cons e rest ih =>
    rw [List.map_cons]
    simp only [checkAll]
    rw [edgeCheck_export i e (h e (List.mem_cons_self e rest)),
      ih (i + 1) (fun m hm => h m (List.mem_cons_of_mem e hm))]
    rfl

/-- An exported document of a well-formed store passes structural
validation with no errors. -/
theorem validateFlow_export (t : String) (G : FlowStore) (ht : t ≠ "")
    (hn : ∀ n ∈ G.nodes, goodNode n) (he : ∀ e ∈ G.edges, goodEdge e) :
    validateFlow (exportFlow t G) = some { valid := true, errors := [] } := by
  have hv : jsGet (exportFlow t G) "version" = .str "1.0.0" := by
    simp [exportFlow, jsGet]
  have hc : jsGet (exportFlow t G) "createdAt" = .str t := by
    simp [exportFlow, jsGet]
  have hns : jsGet (exportFlow t G) "nodes" = .arr (G.nodes.map exportNode) := by
    simp [exportFlow, jsGet]
  have hes : jsGet (exportFlow t G) "edges" = .arr (G.edges.map exportEdge) := by
    simp [exportFlow, jsGet]
  unfold validateFlow
  rw [if_neg (by simp [exportFlow, jsTruthy, jsTypeof])]
  rw [hv, hc, hns, hes]
  simp only [nodesSection, edgesSection]
  rw [checkAll_nodes_export G.nodes 0 hn, checkAll_edges_export G.edges 0 he]
  simp [strOk, ht]

/-- Deserializing a serialized node restores it exactly. -/
theorem jsToFlowNode_export (n : FlowNode) : jsToFlowNode (exportNode n) = n := by
  cases n
  simp [jsToFlowNode, exportNode, jsGet]

/-- Deserializing a serialized edge restores it exactly. -/
theorem jsToFlowEdge_export (e : FlowEdge) : jsToFlowEdge (exportEdge e) = e := by
  cases e
  simp [jsToFlowEdge, exportEdge, jsGet]

/-- The push-based `addNode` loop appends the deserialized nodes. -/
theorem addNodesLoop_push (js : List Js) (s : FlowStore) :
    addNodesLoop pushOps js s = .ok { s with nodes := s.nodes ++ js.map jsToFlowNode } := by
  induction js generalizing s with
  | nil => simp [addNodesLoop]
  | cons j rest ih =>
    have hpush : pushOps.addNode s (jsToFlowNode j) =
        .ok { s with nodes := s.nodes ++ [jsToFlowNode j] } := rfl
    simp only [addNodesLoop, hpush]
    rw [ih]
    simp

/-- The push-based `addEdge` loop appends the deserialized edges. -/
theorem addEdgesLoop_push (js : List Js) (s : FlowStore) :
    addEdgesLoop pushOps js s = .ok { s with edges := s.edges ++ js.map jsToFlowEdge } := by
  induction js generalizing s with
  | nil => simp [addEdgesLoop]
  | cons j rest ih =>
    have hpush : pushOps.addEdge s (jsToFlowEdge j) =
        .ok { s with edges := s.edges ++ [jsToFlowEdge j] } := rfl
    simp only [addEdgesLoop, hpush]
    rw [ih]
    simp

/-- C2 (amended): for a graph state whose node ids and types, and edge
ids, sources and targets, are non-empty, whose positions carry numeric
coordinates and whose data payloads are objects, importing the export
into the empty state succeeds, reproduces the node and edge collections
field-for-field, and re-exporting matches the original export in every
field but `createdAt` (here: for every timestamp). -/
theorem import_export_roundtrip (G : FlowStore) (t : String) (ht : t ≠ "")
    (hn : ∀ n ∈ G.nodes, goodNode n) (he : ∀ e ∈ G.edges, goodEdge e) :
    ∃ s', importFlow pushOps (exportFlow t G) emptyFlowStore =
        some ({ success := true, error := none }, s') ∧
      s'.nodes = G.nodes ∧ s'.edges = G.edges ∧
      ∀ t2, exportFlow t2 s' = exportFlow t2 G := by
  have hmapN : (G.nodes.map exportNode).map jsToFlowNode = G.nodes := by
    rw [List.map_map]
    exact List.map_id'' jsToFlowNode_export G.nodes
  have hmapE : (G.edges.map exportEdge).map jsToFlowEdge = G.edges := by
    rw [List.map_map]
    exact List.map_id'' jsToFlowEdge_export G.edges
  have hns : jsGet (exportFlow t G) "nodes" = .arr (G.nodes.map exportNode) := by
    simp [exportFlow, jsGet]
  have hes : jsGet (exportFlow t G) "edges" = .arr (G.edges.map exportEdge) := by
    simp [exportFlow, jsGet]
  refine ⟨{ emptyFlowStore with nodes := G.nodes, edges := G.edges }, ?_, rfl, rfl, ?_⟩
  · unfold importFlow
    rw [validateFlow_export t G ht hn he, hns, hes]
    simp [jsElems, addNodesLoop_push, addEdgesLoop_push, hmapN, hmapE, emptyFlowStore]
  · intro t2
    rfl

/-- Node with the empty string as id (still a string, as the claim
requires). -/
def badIdNode : FlowNode :=
  { id := "", type := "prompt",
    position := .obj [("x", .num 0), ("y", .num 0)],
    data := .obj [("label", .str "P")],
    io := .obj [("inputs", .arr []), ("outputs", .arr [.str "prompt"])] }

/-- Store whose single node has the empty string as id. -/
def badIdStore : FlowStore := { nodes := [badIdNode], edges := [] }

/-- Counterexample to C2 as stated: the empty-string node id is falsy,
so the exported document fails validation and the import is rejected
instead of reproducing the graph. -/
theorem import_export_roundtrip_counterexample :
    importFlow pushOps (exportFlow "2024-01-01T00:00:00.000Z" badIdStore) emptyFlowStore =
      some ({ success := false,
              error := some "Invalid flow format: Node 0: missing or invalid id" },
            emptyFlowStore) := by
  rfl

/-- Well-formed prompt node for the concrete round-trip input. -/
def promptNode1 : FlowNode :=
  { id := "n1", type := "prompt",
    position := .obj [("x", .num 10), ("y", .num 20)],
    data := .obj [("label", .str "Prompt"), ("prompt", .str "hello")],
    io := .obj [("inputs", .arr []), ("outputs", .arr [.str "prompt"])] }

/-- Well-formed generator node for the concrete round-trip input. -/
def generatorNode2 : FlowNode :=
  { id := "n2", type := "image-generator",
    position := .obj [("x", .num 300), ("y", .num 20)],
    data := .obj [("label", .str "Gen")],
    io := .obj [("inputs", .arr [.str "image", .str "prompt"]),
                ("outputs", .arr [.str "image"])] }

/-- Well-formed edge for the concrete round-trip input. -/
def edgeN1N2 : FlowEdge :=
  { id := "e1", source := "n1", target := "n2",
    sourceHandle := .str "output-0", targetHandle := .str "input-1" }

/-- Well-formed two-node store used as the concrete round-trip input. -/
def goodStore : FlowStore :=
  { nodes := [promptNode1, generatorNode2], edges := [edgeN1N2] }

/-- Witness for C2's amended statement on the concrete store. -/
theorem import_export_roundtrip_witness :
    ∃ s', importFlow pushOps (exportFlow "2024-01-02T00:00:00.000Z" goodStore) emptyFlowStore =
        some ({ success := true, error := none }, s') ∧
      s'.nodes = goodStore.nodes ∧ s'.edges = goodStore.edges ∧
      ∀ t2, exportFlow t2 s' = exportFlow t2 goodStore :=
  import_export_roundtrip goodStore "2024-01-02T00:00:00.000Z" (by decide)
    (by decide) (by decide)

/-- C3 (amended): with the repository's push-based store operations,
which never throw, every failed import leaves the target store exactly
as it was (the only failure path is structural validation, which returns
before any mutation). -/
theorem importFlow_push_failed_unchanged (flowData : Js) (s s' : FlowStore)
    (r : ImportResult) (h : importFlow pushOps flowData s = some (r, s'))
    (hfail : r.success = false) : s' = s := by
  unfold importFlow at h
  cases hv : validateFlow flowData with
  | none => rw [hv] at h; simp at h
  | some v =>
    rw [hv] at h
    dsimp only at h
    by_cases hvalid : v.valid = true
    · rw [if_neg (by simp [hvalid])] at h
      rw [addNodesLoop_push] at h
      dsimp only at h
      rw [addEdgesLoop_push] at h
      dsimp only at h
      simp only [Option.some_inj, Prod.mk.injEq] at h
      rw [← h.1] at hfail
      simp at hfail
    · rw [if_pos (by simp [hvalid])] at h
      simp only [Option.some_inj, Prod.mk.injEq] at h
      exact h.2.symm

/-- Store holding one node and no edges, the pre-import state in the C3
instances. -/
def oneNodeStore : FlowStore := { nodes := [promptNode1], edges := [] }

/-- Witness for C3's amended statement: a validation failure with the
push-based store returns the store unchanged. -/
theorem importFlow_push_failed_unchanged_witness :
    importFlow pushOps Js.null oneNodeStore =
      some ({ success := false,
              error := some ("Invalid flow format: " ++
                jsJoin ", " ["Flow data must be an object"]) },
            oneNodeStore) ∧
    (oneNodeStore : FlowStore) = oneNodeStore :=
  ⟨by rfl,
   importFlow_push_failed_unchanged Js.null oneNodeStore oneNodeStore
     { success := false,
       error := some ("Invalid flow format: " ++
         jsJoin ", " ["Flow data must be an object"]) }
     (by rfl) (by rfl)⟩

/-- Store operations of the setup-store variant of the flow store
(`src/stores/flow.js`), which exposes `nodes`/`edges` but no
`addNode`/`addEdge` actions: invoking the missing methods throws a
TypeError. -/
def noAddOps : FlowStoreOps :=
  { addNode := fun _ _ => .error "flowStore.addNode is not a function"
    addEdge := fun _ _ => .error "flowStore.addEdge is not a function" }

/-- Counterexample to C3 as stated: a structurally valid document whose
reconstruction throws (store without `addNode`) makes `importFlow`
return failure with the target already cleared — the graph present
before the call is not restored. -/
theorem importFlow_exception_clears_counterexample :
    importFlow noAddOps (exportFlow "2024-01-01T00:00:00.000Z" goodStore) oneNodeStore =
      some ({ success := false, error := some "flowStore.addNode is not a function" },
            { oneNodeStore with nodes := [], edges := [] }) ∧
    ({ oneNodeStore with nodes := [], edges := [] } : FlowStore).nodes ≠
      oneNodeStore.nodes := by
  constructor
  · rfl
  · simp [oneNodeStore]

/-- C7 (amended): port-type resolution returns a tag exactly when the
endpoint id and handle id are present and non-empty, the node is found,
its type is registered, the second dash-separated segment of the handle
id (the segment after the FIRST `-`, i.e. `split('-')[1]`) parses as a
non-negative integer, and the definition's outputs (source side) or
inputs (target side) carry a non-empty tag at that index; it returns
null in every other case. -/
theorem getEdgePortType_spec (edge : EdgeRef) (nodes : List FlowNode)
    (reg : Registry) (isSource : Bool) (tag : String) :
    getEdgePortType edge nodes reg isSource = some tag ↔
    ∃ nodeId handleId node nodeDef seg k,
      (if isSource then edge.source else edge.target) = some nodeId ∧ nodeId ≠ "" ∧
      (if isSource then edge.sourceHandle else edge.targetHandle) = some handleId ∧
      handleId ≠ "" ∧
      nodes.find? (fun n => n.id = nodeId) = some node ∧
      getNodeDef reg node.type = some nodeDef ∧
      (jsSplit '-' handleId).get? 1 = some seg ∧
      jsParseInt seg = some k ∧ 0 ≤ k ∧
      (if isSource then nodeDef.outputs else nodeDef.inputs).get? k.toNat = some tag ∧
      tag ≠ "" := by
  constructor
  · intro h
    unfold getEdgePortType at h
    cases hA : (if isSource then edge.source else edge.target) with
    | none => rw [hA] at h; dsimp only at h; exact absurd h (by simp)
    | some nid =>
      cases hB : (if isSource then edge.sourceHandle else edge.targetHandle) with
      | none => rw [hA, hB] at h; dsimp only at h; exact absurd h (by simp)
      | some hid =>
        rw [hA, hB] at h
        dsimp only at h
        by_cases hz : nid = "" ∨ hid = ""
        · rw [if_pos hz] at h; exact absurd h (by simp)
        · rw [if_neg hz] at h
          rw [not_or] at hz
          cases hfind : nodes.find? (fun n => n.id = nid) with
          | none => rw [hfind] at h; exact absurd h (by simp)
          | some node =>
            rw [hfind] at h
            dsimp only at h
            cases hdef : getNodeDef reg node.type with
            | none => rw [hdef] at h; exact absurd h (by simp)
            | some ndef =>
              rw [hdef] at h
              dsimp only at h
              cases hseg : (jsSplit '-' hid).get? 1 with
              | none => rw [hseg] at h; exact absurd h (by simp)
              | some seg =>
                rw [hseg] at h
                dsimp only at h
                cases hparse : jsParseInt seg with
                | none => rw [hparse] at h; exact absurd h (by simp)
                | some k =>
                  rw [hparse] at h
                  dsimp only at h
                  unfold indexPort at h
                  by_cases hk : k < 0
                  · rw [if_pos hk] at h; exact absurd h (by simp)
                  · rw [if_neg hk] at h
                    cases hidx : (if isSource then ndef.outputs else ndef.inputs).get? k.toNat with
                    | none => rw [hidx] at h; exact absurd h (by simp)
                    | some tag0 =>
                      rw [hidx] at h
                      dsimp only at h
                      by_cases ht0 : tag0 = ""
                      · rw [if_pos ht0] at h; exact absurd h (by simp)
                      · rw [if_neg ht0] at h
                        rw [Option.some_inj] at h
                        subst h
                        exact ⟨nid, hid, node, ndef, seg, k, rfl, hz.1, rfl, hz.2,
                          hfind, hdef, hseg, hparse, not_lt.mp hk, hidx, ht0⟩
  · rintro ⟨nid, hid, node, ndef, seg, k, hA, hnid, hB, hhid, hfind, hdef,
      hseg, hparse, hk, hidx, htag⟩
    unfold getEdgePortType
    rw [hA, hB]
    dsimp only
    rw [if_neg (by simp [hnid, hhid])]
    rw [hfind]
    dsimp only
    rw [hdef]
    dsimp only
    rw [hseg]
    dsimp only
    rw [hparse]
    dsimp only
    unfold indexPort
    rw [if_neg (by omega)]
    rw [hidx]
    dsimp only
    rw [if_neg htag]

/-- Node type with two declared outputs, for exercising handle parsing. -/
def twoOutDef : NodeDef :=
  { type := "two-out", label := "TwoOut", description := ""
    inputs := [], outputs := ["image", "prompt"]
    component := "TwoOutNode", config := [] }

/-- One-entry registry holding the two-output definition. -/
def regC7 : Registry := [("two-out", twoOutDef)]

/-- Node owning the two-output type. -/
def nodeC7 : FlowNode :=
  { id := "n1", type := "two-out", position := .null, data := .null, io := .null }

/-- Edge-like reference with a multi-dash source handle. -/
def edgeRefC7 : EdgeRef := { source := some "n1", sourceHandle := some "a-1-0" }

/-- Counterexample to C7 as stated: on the handle `"a-1-0"` the trailing
integer after the last `-` is 0, whose output tag is `"image"`, but the
code parses `split('-')[1]` and resolves index 1, returning `"prompt"`. -/
theorem getEdgePortType_counterexample :
    specTrailingIndex "a-1-0" = some 0 ∧
    twoOutDef.outputs.get? 0 = some "image" ∧
    getEdgePortType edgeRefC7 [nodeC7] regC7 true = some "prompt" ∧
    ("prompt" : String) ≠ "image" :=
  ⟨by rfl, by rfl, by rfl, by decide⟩
